import Mathlib

/-!
Shallow embedding of the RustJni repository (Monnoroch/RustJni).

Part 1: the Modified-UTF-8 codec of `src/lib/j_chars.rs`
(`JavaChars::new`, `JavaChars::to_string`, `JavaChars::from_raw_vec`).
Bytes are modelled as `Nat` values; a Rust `as u8` cast is an explicit
`% 256`.

Part 2: the capability / reference-class protocol of `src/lib/jni.rs`
(`JniResult`, `find_class`, `new_string`, `alloc_object`,
`delete_local_ref` / `delete_global_ref` / `delete_weak_ref`,
`Drop for JavaEnv`, `get_string_unicode_region`).  Foreign (JVM) calls
are modelled by passing their raw return value in as a parameter.
-/

namespace RustJni

/-- A Modified-UTF-8 byte buffer: `struct JavaChars { contents: Vec<u8> }`. -/
structure JavaChars where
  contents : List Nat
  deriving DecidableEq, Repr

/-- One iteration of the encoder loop in `JavaChars::new` (j_chars.rs lines
9-33): the bytes pushed for the scalar value `j` of a single Rust `char`.
The match arms are translated in source order; the trailing `[]` case is the
`unreachable!()` arm, never hit for a Unicode scalar value (a Rust `char` is
always at most 0x10FFFF). -/
def encodeChar (j : Nat) : List Nat :=
  if j = 0 ∨ (0x80 ≤ j ∧ j ≤ 0x7FF) then
    [0xC0 ||| ((j >>> 6) % 256), 0x80 ||| ((0x3F &&& j) % 256)]
  else if 1 ≤ j ∧ j ≤ 0x7F then
    [j % 256]
  else if 0x800 ≤ j ∧ j ≤ 0xFFFF then
    [0xE0 ||| ((j >>> 12) % 256), 0x80 ||| ((0x3F &&& (j >>> 6)) % 256),
     0x80 ||| ((0x3F &&& j) % 256)]
  else if 0x10000 ≤ j ∧ j ≤ 0x10FFFF then
    let subchar := j - 0x10000
    [0xED,
     0xA0 ||| ((subchar >>> 16) % 256),
     0x80 ||| ((0x3F &&& (subchar >>> 10)) % 256),
     0xED,
     0xED,
     0xA0 ||| ((0x0F &&& (subchar >>> 6)) % 256),
     0x80 ||| ((0x3F &&& subchar) % 256)]
  else
    []

/-- `JavaChars::new` (j_chars.rs lines 7-37): encode every scalar value of
the input string, then push the terminating `0x00`. -/
def JavaChars.new (value : List Nat) : JavaChars :=
  ⟨(value.map encodeChar).flatten ++ [0]⟩

/-- Outcome of `JavaChars::to_string` (j_chars.rs lines 38-120).
`ok bytes` is `Some(String::from_utf8_unchecked(bytes))`; `failure` is the
`return None` paths; `oobPanic` is an out-of-bounds index
`self.contents[counter]` past the end of the buffer; `invalidPanic` is the
`panic!("Invalid Java string")` arm. -/
inductive DecodeResult where
  | ok (bytes : List Nat)
  | failure
  | oobPanic
  | invalidPanic
  deriving DecidableEq, Repr

/-- The decode loop of `JavaChars::to_string` (j_chars.rs lines 41-119).
`a` is the output accumulator, the second argument is the not-yet-consumed
suffix of `contents` starting at `counter`.  Match arms are translated in
source order (so `0xED` is tested before the general `0xE0 ... 0xEF` arm),
and every `self.contents[counter]` read is a list head pattern whose empty
case is `oobPanic`. -/
def decodeLoop : List Nat → List Nat → DecodeResult
  | _, [] => .oobPanic
  | a, i :: rest =>
    if i = 0 then .ok a
    else if 1 ≤ i ∧ i ≤ 0x7F then decodeLoop (a ++ [i]) rest
    else if i = 0xC0 then
      match rest with
      | [] => .oobPanic
      | j :: rest2 =>
        if j = 0x80 then decodeLoop (a ++ [0]) rest2
        else decodeLoop (a ++ [i, j]) rest2
    else if 0xC1 ≤ i ∧ i ≤ 0xDF then
      match rest with
      | [] => .oobPanic
      | j :: rest2 => decodeLoop (a ++ [i, j]) rest2
    else if i = 0xED then
      match rest with
      | [] => .oobPanic
      | nc :: rest2 =>
        if nc &&& 0xE0 = 0xA0 then
          if nc &&& 0x10 ≠ 0 then .failure
          else
            let highByte := (0xF1 + (nc >>> 2)) % 256
            match rest2 with
            | [] => .oobPanic
            | b2 :: rest3 =>
              let nc2 := b2 &&& 0x0F
              let secondByte := (nc2 >>> 2) ||| ((highByte &&& 0x3) <<< 4) ||| 0x80
              match rest3 with
              | [] => .oobPanic
              | b3 :: rest4 =>
                if b3 ≠ 0xED then .failure
                else
                  match rest4 with
                  | [] => .oobPanic
                  | b4 :: rest5 =>
                    let nc3 := 0x3F ||| b4
                    if nc3 &&& 0xF0 ≠ 0xB0 then .failure
                    else
                      let thirdByte := nc3 ||| ((nc2 &&& 0x3) <<< 4)
                      match rest5 with
                      | [] => .oobPanic
                      | b5 :: rest6 =>
                        decodeLoop (a ++ [highByte, secondByte, thirdByte, b5]) rest6
        else
          match rest2 with
          | [] => .oobPanic
          | b2 :: rest3 => decodeLoop (a ++ [i, nc, b2]) rest3
    else if 0xE0 ≤ i ∧ i ≤ 0xEF then
      match rest with
      | [] => .oobPanic
      | j :: rest2 =>
        match rest2 with
        | [] => .oobPanic
        | k :: rest3 => decodeLoop (a ++ [i, j, k]) rest3
    else .invalidPanic

/-- `JavaChars::to_string` (j_chars.rs lines 38-120): run the decode loop on
the whole buffer with an empty accumulator. -/
def JavaChars.to_string (self : JavaChars) : DecodeResult :=
  decodeLoop [] self.contents

/-- `JavaChars::from_raw_vec` (j_chars.rs lines 127-129): wrap an arbitrary
byte vector without adding a terminator. -/
def JavaChars.from_raw_vec (data : List Nat) : JavaChars :=
  ⟨data⟩

/-- Standard UTF-8 encoding of one Unicode scalar value.  Used to state what
`String::from_utf8_unchecked` makes of the decoder's output bytes: decoding
yields the string `s` exactly when the output bytes are `utf8Encode s`. -/
def utf8EncodeChar (c : Nat) : List Nat :=
  if c < 0x80 then [c]
  else if c < 0x800 then [0xC0 ||| (c >>> 6), 0x80 ||| (c &&& 0x3F)]
  else if c < 0x10000 then
    [0xE0 ||| (c >>> 12), 0x80 ||| ((c >>> 6) &&& 0x3F), 0x80 ||| (c &&& 0x3F)]
  else
    [0xF0 ||| (c >>> 18), 0x80 ||| ((c >>> 12) &&& 0x3F),
     0x80 ||| ((c >>> 6) &&& 0x3F), 0x80 ||| (c &&& 0x3F)]

/-- Standard UTF-8 encoding of a sequence of scalar values. -/
def utf8Encode (s : List Nat) : List Nat :=
  (s.map utf8EncodeChar).flatten

/-!
Part 2: the capability / reference-class protocol of `src/lib/jni.rs`.

The JVM itself is foreign: each wrapper's single JNI call is modelled by
passing the raw value that call would return (`jobject` / `jclass` /
`jstring` pointers become `Nat`, with `0` the null pointer).
-/

/-- `struct Capability { _cap: () }` (jni.rs lines 66-75): the zero-size
token meaning no exception is pending. -/
structure Capability where
  deriving DecidableEq, Repr

/-- `struct Exception { _cap: () }` (jni.rs lines 82-91): the zero-size
token meaning an exception is pending. -/
structure Exception where
  deriving DecidableEq, Repr

/-- `pub type JniResult<T> = Result<(T, Capability), Exception>` (jni.rs
line 93). -/
def JniResult (T : Type) : Type :=
  Except Exception (T × Capability)

/-- `enum RefType { Local, Global, Weak }` (jni.rs lines 1146-1151). -/
inductive RefType where
  | Local
  | Global
  | Weak
  deriving DecidableEq, Repr

/-- A typed handle as built by `JObject::from_unsafe_type` (jni.rs lines
1162-1166, 1307-1313): the raw pointer plus the reference class fixed at
creation. -/
structure JObj where
  ptr : Nat
  rtype : RefType
  deriving DecidableEq, Repr

namespace JavaEnv

/-- `JavaEnv::find_class` (jni.rs lines 603-614): `obj` is the raw
`jclass` returned by the JNI `FindClass` call.  The capability is consumed;
on a null result a pending-`Exception` token is returned, otherwise the
local handle together with a fresh `Capability`. -/
def find_class (obj : Nat) (_cap : Capability) : JniResult JObj :=
  if obj = 0 then Except.error Exception.mk
  else Except.ok (⟨obj, RefType.Local⟩, Capability.mk)

/-- `JavaEnv::new_string` (jni.rs lines 828-839): `r` is the raw `jstring`
returned by the JNI `NewStringUTF` call. -/
def new_string (r : Nat) (_cap : Capability) : JniResult JObj :=
  if r = 0 then Except.error Exception.mk
  else Except.ok (⟨r, RefType.Local⟩, Capability.mk)

/-- `JavaEnv::alloc_object` (jni.rs lines 799-809): `obj` is the raw
`jobject` returned by the JNI `AllocObject` call. -/
def alloc_object (obj : Nat) (_cap : Capability) : JniResult JObj :=
  if obj = 0 then Except.error Exception.mk
  else Except.ok (⟨obj, RefType.Local⟩, Capability.mk)

/-- Outcome of one of the three `delete_*_ref` wrappers: either the
`assert!` on the handle's reference class fails, or the matching JNI delete
call runs. -/
inductive ReleaseOutcome where
  | assertionFailure
  | released
  deriving DecidableEq, Repr

/-- `JavaEnv::delete_local_ref` (jni.rs lines 758-763):
`assert!(gobj.ref_type() == RefType::Local)`, then `DeleteLocalRef`. -/
def delete_local_ref (gobj : JObj) (_cap : Capability) : ReleaseOutcome :=
  if gobj.rtype = RefType.Local then ReleaseOutcome.released
  else ReleaseOutcome.assertionFailure

/-- `JavaEnv::delete_global_ref` (jni.rs lines 769-774):
`assert!(gobj.ref_type() == RefType::Global)`, then `DeleteGlobalRef`. -/
def delete_global_ref (gobj : JObj) (_cap : Capability) : ReleaseOutcome :=
  if gobj.rtype = RefType.Global then ReleaseOutcome.released
  else ReleaseOutcome.assertionFailure

/-- `JavaEnv::delete_weak_ref` (jni.rs lines 780-785):
`assert!(wobj.ref_type() == RefType::Weak)`, then `DeleteWeakGlobalRef`. -/
def delete_weak_ref (wobj : JObj) (_cap : Capability) : ReleaseOutcome :=
  if wobj.rtype = RefType.Weak then ReleaseOutcome.released
  else ReleaseOutcome.assertionFailure

/-- The observable steps of `Drop for JavaEnv` (jni.rs lines 1120-1144). -/
inductive DropAction where
  | describeException
  | clearException
  | assertFail
  | detachThread
  deriving DecidableEq, Repr

/-- `Drop for JavaEnv` (jni.rs lines 1120-1144) as the sequence of actions
it performs.  `pending` is what `exception_check` reports; `detach` is the
binding's `detach` flag (set by `get_env_gen` only when this binding itself
attached the thread, jni.rs lines 496-523).  If an exception is pending the
drop describes it, clears it, and then `assert!(false)` panics, so the
detach code is never reached on that path. -/
def drop (pending : Bool) (detach : Bool) : List DropAction :=
  if pending then
    [DropAction.describeException, DropAction.clearException, DropAction.assertFail]
  else if detach then [DropAction.detachThread]
  else []

/-- `std::char::from_u32` as used in `get_string_unicode_region` (jni.rs
line 897): `none` exactly on surrogate code points and values above
0x10FFFF. -/
def char_from_u32 (c : Nat) : Option Nat :=
  if (0xD800 ≤ c ∧ c ≤ 0xDFFF) ∨ 0x10FFFF < c then none else some c

/-- `JavaEnv::get_string_unicode_region` (jni.rs lines 885-903): `units` is
the `length` 16-bit units the JNI `GetStringRegion` call wrote.  Each unit
is pushed only when `std::char::from_u32` accepts it; a `None` is silently
skipped (`None => {}`). -/
def get_string_unicode_region (units : List Nat) : List Nat :=
  units.filterMap char_from_u32

end JavaEnv

/-- The exclusivity shape of a `JniResult` value: it is either a pair of a
useful result and a fresh `Capability`, or a pending-`Exception` token, and
never both at once. -/
def exclusiveOutcome {T : Type} (r : JniResult T) : Prop :=
  ((∃ v c, r = Except.ok (v, c)) ∧ ¬ ∃ e, r = Except.error e) ∨
  ((∃ e, r = Except.error e) ∧ ¬ ∃ v c, r = Except.ok (v, c))

/-- Every `Except` value (so every `JniResult`) satisfies `exclusiveOutcome`:
the two constructors are mutually exclusive. -/
theorem exclusiveOutcome_total {T : Type}
    (r : Except Exception (T × Capability)) : exclusiveOutcome r := by
  unfold exclusiveOutcome
  cases r with
  | error e =>
    right
    refine ⟨⟨e, rfl⟩, ?_⟩
    rintro ⟨v, c, h⟩
    exact Except.noConfusion h
  | ok p =>
    left
    refine ⟨⟨p.1, p.2, rfl⟩, ?_⟩
    rintro ⟨e, h⟩
    exact Except.noConfusion h

/-!
Unfolding helpers for `decodeLoop`.  The equation lemmas for `decodeLoop`
are too large for automatic generation, so the one-step unfoldings are
proved once, definitionally, and used everywhere below; `smartUnfolding`
is disabled so that definitional reduction of `decodeLoop` applications is
available to `rfl`-style proofs.
-/

set_option smartUnfolding false

set_option maxRecDepth 8192

set_option linter.unusedTactic false

/-- The decode loop on an empty buffer: the very first read
`self.contents[counter]` is already out of bounds. -/
theorem decodeLoop_nil (a : List Nat) :
    decodeLoop a [] = DecodeResult.oobPanic := rfl

/-- One-step unfolding of the decode loop on a non-empty buffer, mirroring
the match of `JavaChars::to_string` on the byte `i` read at `counter`. -/
theorem decodeLoop_cons (a : List Nat) (i : Nat) (rest : List Nat) :
    decodeLoop a (i :: rest) =
    (if i = 0 then .ok a
    else if 1 ≤ i ∧ i ≤ 0x7F then decodeLoop (a ++ [i]) rest
    else if i = 0xC0 then
      match rest with
      | [] => .oobPanic
      | j :: rest2 =>
        if j = 0x80 then decodeLoop (a ++ [0]) rest2
        else decodeLoop (a ++ [i, j]) rest2
    else if 0xC1 ≤ i ∧ i ≤ 0xDF then
      match rest with
      | [] => .oobPanic
      | j :: rest2 => decodeLoop (a ++ [i, j]) rest2
    else if i = 0xED then
      match rest with
      | [] => .oobPanic
      | nc :: rest2 =>
        if nc &&& 0xE0 = 0xA0 then
          if nc &&& 0x10 ≠ 0 then .failure
          else
            let highByte := (0xF1 + (nc >>> 2)) % 256
            match rest2 with
            | [] => .oobPanic
            | b2 :: rest3 =>
              let nc2 := b2 &&& 0x0F
              let secondByte := (nc2 >>> 2) ||| ((highByte &&& 0x3) <<< 4) ||| 0x80
              match rest3 with
              | [] => .oobPanic
              | b3 :: rest4 =>
                if b3 ≠ 0xED then .failure
                else
                  match rest4 with
                  | [] => .oobPanic
                  | b4 :: rest5 =>
                    let nc3 := 0x3F ||| b4
                    if nc3 &&& 0xF0 ≠ 0xB0 then .failure
                    else
                      let thirdByte := nc3 ||| ((nc2 &&& 0x3) <<< 4)
                      match rest5 with
                      | [] => .oobPanic
                      | b5 :: rest6 =>
                        decodeLoop (a ++ [highByte, secondByte, thirdByte, b5]) rest6
        else
          match rest2 with
          | [] => .oobPanic
          | b2 :: rest3 => decodeLoop (a ++ [i, nc, b2]) rest3
    else if 0xE0 ≤ i ∧ i ≤ 0xEF then
      match rest with
      | [] => .oobPanic
      | j :: rest2 =>
        match rest2 with
        | [] => .oobPanic
        | k :: rest3 => decodeLoop (a ++ [i, j, k]) rest3
    else .invalidPanic : DecodeResult) := by
  cases rest with
  | nil => exact rfl
  | cons b1 t1 =>
    cases t1 with
    | nil => exact rfl
    | cons b2 t2 =>
      cases t2 with
      | nil => exact rfl
      | cons b3 t3 =>
        cases t3 with
        | nil => exact rfl
        | cons b4 t4 =>
          cases t4 with
          | nil => exact rfl
          | cons b5 t5 => exact rfl

/-- The decode loop can return `ok` only by reaching a `0x00` byte: on a
buffer containing no `0x00` it never succeeds, whatever is already in the
accumulator. -/
theorem decodeLoop_no_zero : ∀ (a l : List Nat), (0 : Nat) ∉ l →
    ∀ b, decodeLoop a l ≠ DecodeResult.ok b := by
  intro a l
  induction a, l using decodeLoop.induct <;> intro hz b h <;>
    first
      | exact DecodeResult.noConfusion h
      | exact absurd (List.mem_cons_self 0 _) hz
      | (rw [decodeLoop_cons] at h
         simp_all
         done)
      | (rw [decodeLoop_cons] at h
         repeat' split at h
         all_goals first | exact DecodeResult.noConfusion h | omega | simp_all
         done)

/-!
Theorems settling the claims.
-/

/-- C1: the round-trip `decode(encode(v)) = v` claimed for every scalar
value in 1..0x10FFFF outside the surrogate range fails at v = 0x10000: the
encoder emits a seven-byte group (duplicated `0xED` push, `0xA0`-prefixed
low group) that the decoder itself rejects, so `to_string` returns `None`
instead of `Some` of the original one-character string (whose UTF-8 bytes
are `utf8Encode [0x10000]`). -/
theorem roundtrip_broken_at_0x10000 :
    JavaChars.to_string (JavaChars.new [0x10000]) = DecodeResult.failure ∧
    DecodeResult.failure ≠ DecodeResult.ok (utf8Encode [0x10000]) := by
  decide

/-- C2: for a supplementary-plane scalar value the encoder does not emit
the claimed six bytes ending in the `0xB0`-prefixed low-surrogate group: at
v = 0x10000 (s = 0) it emits seven bytes, pushing `0xED` twice and
prefixing the low group with `0xA0`. -/
theorem encoder_supplementary_bytes :
    encodeChar 0x10000 = [0xED, 0xA0, 0x80, 0xED, 0xED, 0xA0, 0x80] ∧
    (encodeChar 0x10000).length ≠ 6 := by
  decide

/-- C3: each exception-raising operation (`find_class`, `new_string`,
`alloc_object`) consumes a `Capability` and returns either a pair of the
useful result and a fresh `Capability`, or an `Exception` token — never
both at once. -/
theorem jni_ops_result_exclusive (raw : Nat) (cap : Capability) :
    exclusiveOutcome (JavaEnv.find_class raw cap) ∧
    exclusiveOutcome (JavaEnv.new_string raw cap) ∧
    exclusiveOutcome (JavaEnv.alloc_object raw cap) :=
  ⟨exclusiveOutcome_total _, exclusiveOutcome_total _, exclusiveOutcome_total _⟩

/-- Witness for C3 at the concrete raw JNI results 0 (null) and 7. -/
theorem jni_ops_result_exclusive_witness :
    exclusiveOutcome (JavaEnv.find_class 0 Capability.mk) ∧
    exclusiveOutcome (JavaEnv.find_class 7 Capability.mk) :=
  ⟨(jni_ops_result_exclusive 0 Capability.mk).1,
   (jni_ops_result_exclusive 7 Capability.mk).1⟩

/-- C4 counterexample: in the buffer `ED A0 80 ED 80 80 00` the byte
following the second `0xED` is `0x80`, whose top nibble is 1000, not 1011;
the claim says decode must return DecodeFailure, but the code's check
`(0x3F | b) & 0xF0 == 0xB0` accepts it and decoding produces bytes. -/
theorem surrogate_low_nibble_counterexample :
    JavaChars.to_string ⟨[0xED, 0xA0, 0x80, 0xED, 0x80, 0x80, 0x00]⟩ =
      DecodeResult.ok [0x19, 0x90, 0xBF, 0x80] ∧
    0x80 >>> 4 ≠ 0xB := by
  decide

/-- C4 amended: during decoding of a surrogate pair, if the byte `b4`
following the second `0xED` fails the code's actual check — its top two
bits are not `10`, i.e. `(0x3F ||| b4) &&& 0xF0 ≠ 0xB0` — the decoder
returns DecodeFailure; bytes with top nibble 1000..1011 all pass the
check, not only 1011. -/
theorem surrogate_low_group_check (a : List Nat) (nc b2 b4 : Nat)
    (rest : List Nat) (h1 : nc &&& 0xE0 = 0xA0) (h2 : nc &&& 0x10 = 0)
    (h3 : (0x3F ||| b4) &&& 0xF0 ≠ 0xB0) :
    decodeLoop a (0xED :: nc :: b2 :: 0xED :: b4 :: rest) =
      DecodeResult.failure := by
  rw [decodeLoop_cons]
  norm_num [h1, h2, h3]

/-- Witness for C4's amended theorem at nc = 0xA0, b4 = 0xC0. -/
theorem surrogate_low_group_check_witness :
    (0xA0 &&& 0xE0 = 0xA0) ∧ (0xA0 &&& 0x10 = 0) ∧
    ((0x3F ||| 0xC0) &&& 0xF0 ≠ 0xB0) ∧
    decodeLoop [] [0xED, 0xA0, 0x80, 0xED, 0xC0] = DecodeResult.failure :=
  ⟨by decide, by decide, by decide,
   surrogate_low_group_check [] 0xA0 0x80 0xC0 []
     (by decide) (by decide) (by decide)⟩

/-- C5: whenever lead byte `0xED` is followed by a byte whose top three
bits are 101 but whose `0x10` bit is set (an invalid high-surrogate
marker), decoding returns DecodeFailure — both from an arbitrary decoder
state and for the whole buffer via `to_string` — and never produces a
scalar. -/
theorem invalid_surrogate_marker_fails (a : List Nat) (nc : Nat)
    (rest : List Nat) (h1 : nc &&& 0xE0 = 0xA0) (h2 : nc &&& 0x10 ≠ 0) :
    decodeLoop a (0xED :: nc :: rest) = DecodeResult.failure ∧
    JavaChars.to_string ⟨0xED :: nc :: rest⟩ = DecodeResult.failure := by
  have key : ∀ x : List Nat,
      decodeLoop x (0xED :: nc :: rest) = DecodeResult.failure := by
    intro x
    rw [decodeLoop_cons]
    norm_num [h1, h2]
  exact ⟨key a, key []⟩

/-- Witness for C5 at nc = 0xB0 with an empty tail. -/
theorem invalid_surrogate_marker_fails_witness :
    (0xB0 &&& 0xE0 = 0xA0) ∧ (0xB0 &&& 0x10 ≠ 0) ∧
    JavaChars.to_string ⟨[0xED, 0xB0]⟩ = DecodeResult.failure :=
  ⟨by decide, by decide,
   (invalid_surrogate_marker_fails [] 0xB0 [] (by decide) (by decide)).2⟩

/-- C6: calling a release operation that does not match the handle's actual
reference class hits the `assert!` in the corresponding `delete_*_ref`
wrapper; it never silently runs the delete. -/
theorem wrong_release_asserts (obj : JObj) (cap : Capability) :
    (obj.rtype ≠ RefType.Local →
      JavaEnv.delete_local_ref obj cap =
        JavaEnv.ReleaseOutcome.assertionFailure) ∧
    (obj.rtype ≠ RefType.Global →
      JavaEnv.delete_global_ref obj cap =
        JavaEnv.ReleaseOutcome.assertionFailure) ∧
    (obj.rtype ≠ RefType.Weak →
      JavaEnv.delete_weak_ref obj cap =
        JavaEnv.ReleaseOutcome.assertionFailure) := by
  refine ⟨fun h => ?_, fun h => ?_, fun h => ?_⟩ <;>
    simp [JavaEnv.delete_local_ref, JavaEnv.delete_global_ref,
      JavaEnv.delete_weak_ref, h]

/-- Witness for C6: a Global handle given to the local release, a Local
handle given to the global release, a Global handle given to the weak
release. -/
theorem wrong_release_asserts_witness :
    JavaEnv.delete_local_ref ⟨1, RefType.Global⟩ Capability.mk =
      JavaEnv.ReleaseOutcome.assertionFailure ∧
    JavaEnv.delete_global_ref ⟨1, RefType.Local⟩ Capability.mk =
      JavaEnv.ReleaseOutcome.assertionFailure ∧
    JavaEnv.delete_weak_ref ⟨1, RefType.Global⟩ Capability.mk =
      JavaEnv.ReleaseOutcome.assertionFailure :=
  ⟨(wrong_release_asserts ⟨1, RefType.Global⟩ Capability.mk).1 (by decide),
   (wrong_release_asserts ⟨1, RefType.Local⟩ Capability.mk).2.1 (by decide),
   (wrong_release_asserts ⟨1, RefType.Global⟩ Capability.mk).2.2 (by decide)⟩

/-- C7: on `Drop` of a `JavaEnv`, a pending exception is described, then
cleared, then the `assert!(false)` fires; and the detach step appears among
the drop's actions only when the binding's `detach` flag is set, that is,
only when this binding itself caused the attachment. -/
theorem javaEnv_drop_spec (pending detach : Bool) :
    (pending = true →
      JavaEnv.drop pending detach =
        [JavaEnv.DropAction.describeException,
         JavaEnv.DropAction.clearException,
         JavaEnv.DropAction.assertFail]) ∧
    (JavaEnv.DropAction.detachThread ∈ JavaEnv.drop pending detach →
      detach = true) := by
  cases pending <;> cases detach <;> simp [JavaEnv.drop]

/-- Witness for C7 at pending = true / detach = false and at
pending = false / detach = true. -/
theorem javaEnv_drop_spec_witness :
    JavaEnv.drop true false =
      [JavaEnv.DropAction.describeException,
       JavaEnv.DropAction.clearException,
       JavaEnv.DropAction.assertFail] ∧ true = true :=
  ⟨(javaEnv_drop_spec true false).1 rfl,
   (javaEnv_drop_spec false true).2 (by decide)⟩

/-- C8: U+0000 is encoded as the overlong pair `C0 80` (no literal `0x00`
byte except the trailing terminator), and decoding that buffer yields the
one-byte string containing the NUL scalar — not the empty string — because
only the trailing `0x00` terminator ends the decode loop. -/
theorem nul_overlong_roundtrip :
    encodeChar 0 = [0xC0, 0x80] ∧
    (JavaChars.new [0]).contents = [0xC0, 0x80, 0] ∧
    JavaChars.to_string (JavaChars.new [0]) = DecodeResult.ok [0] ∧
    utf8Encode [0] = [0] ∧
    DecodeResult.ok [0] ≠ DecodeResult.ok ([] : List Nat) := by
  decide

/-- C9: the decode loop returns `Some` only by reaching a `0x00` byte, so
on a `from_raw_vec` buffer with no `0x00` byte it never succeeds — it runs
off the end of the buffer (the out-of-bounds index panic), as the two
concrete buffers `[0x41]` (no terminator) and `[0xC3, 0x00]` (terminator
hidden inside a truncated two-byte sequence) show. -/
theorem decode_needs_terminator :
    (∀ (a l : List Nat), (0 : Nat) ∉ l →
      ∀ bytes, decodeLoop a l ≠ DecodeResult.ok bytes) ∧
    JavaChars.to_string (JavaChars.from_raw_vec [0x41]) =
      DecodeResult.oobPanic ∧
    JavaChars.to_string (JavaChars.from_raw_vec [0xC3, 0x00]) =
      DecodeResult.oobPanic :=
  ⟨decodeLoop_no_zero, by decide, by decide⟩

/-- Witness for C9 on the zero-free buffer `[0x41]`. -/
theorem decode_needs_terminator_witness :
    ((0 : Nat) ∉ [(0x41 : Nat)]) ∧
    decodeLoop [] [0x41] ≠ DecodeResult.ok [] :=
  ⟨by decide, decode_needs_terminator.1 [] [0x41] (by decide) []⟩

/-- C10: `get_string_unicode_region` silently drops every 16-bit unit that
`std::char::from_u32` rejects, so the returned character vector can hold
fewer than the requested `length` characters and no error is reported —
of the two requested units `[0xD800, 0x41]` only one character comes
back. -/
theorem unicode_region_skips_invalid :
    (∀ units : List Nat,
      (JavaEnv.get_string_unicode_region units).length ≤ units.length) ∧
    (∀ (units : List Nat) (c : Nat), JavaEnv.char_from_u32 c = none →
      JavaEnv.get_string_unicode_region (c :: units) =
        JavaEnv.get_string_unicode_region units) ∧
    JavaEnv.get_string_unicode_region [0xD800, 0x41] = [0x41] := by
  refine ⟨?_, ?_, by decide⟩
  · intro units
    exact List.length_filterMap_le _ _
  · intro units c h
    simp [JavaEnv.get_string_unicode_region, List.filterMap_cons, h]

/-- Witness for C10: the lone surrogate unit 0xD800 is dropped. -/
theorem unicode_region_skips_invalid_witness :
    JavaEnv.char_from_u32 0xD800 = none ∧
    JavaEnv.get_string_unicode_region [0xD800] =
      JavaEnv.get_string_unicode_region [] :=
  ⟨by decide, unicode_region_skips_invalid.2.1 [] 0xD800 (by decide)⟩

end RustJni
